import Mathlib

/-!
Verification of the AsradaAI interaction core against its specification.

The development shallowly embeds the Python modules `asrada_head.py`
(Device Link), `my_tts.py` (Audio Playback Engine) and
`asrada_controller.py` (Event Orchestrator).  Network, audio and thread
effects are made explicit: each operation takes the outcomes of its
environment interactions (discovery results, TCP connect results, write
results, collaborator call results) as parameters and returns the new
state together with the observable effects (frames written, discovery
queries issued, messages delivered).  Python exceptions are modelled
with `Except`; an operation that catches internally is a total function.
-/

namespace Asrada

/-! ## Device Link (`asrada_head.py`, class `AsradaHead`) -/

/-- State of the `AsradaHead` object: configured hostname/port, the
discovered address, whether a socket object exists (`self.sock is not
None`), and the `_connected` flag. -/
structure HeadState where
  hostname : Option String
  port : Option Nat
  ip : Option Nat
  sock : Bool
  connected : Bool
deriving DecidableEq, Repr

/-- `AsradaHead.__init__`: everything unset, disconnected. -/
def initHead : HeadState :=
  { hostname := none, port := none, ip := none, sock := false, connected := false }

/-- `AsradaHead.is_connected`: `self._connected and self.sock is not None`. -/
def is_connected (s : HeadState) : Bool :=
  s.connected && s.sock

/-- `AsradaHead.set_config(hostname, port)`: stores the hostname and port.
(The source comment says the hostname is effectively unused, since
`connect` always rediscovers via mDNS.) -/
def set_config (s : HeadState) (hostname : String) (port : Nat) : HeadState :=
  { s with hostname := some hostname, port := some port }

/-- Outcome of one TCP connect attempt (`sock.connect` succeeding or
raising inside the `try` of `AsradaHead.connect`). -/
inductive TcpResult
  | ok
  | err
deriving DecidableEq, Repr

/-- The environment of one iteration of the retry loop in
`AsradaHead.connect`: the result of the mDNS discovery query
(`mdns_find_asrada`, `none` = not found) and, when an address was found,
the result of the TCP connect attempt. -/
abbrev ConnectAttempt : Type := Option (Nat × Nat) × TcpResult

/-- The retry loop of `AsradaHead.connect`, one list entry per attempt.
Each iteration issues a discovery query (counted in the third
component); on discovery failure it sleeps and continues; on discovery
success it records ip/port and tries TCP: success sets the socket and
the connected flag and returns `True`; a connect exception closes the
socket and continues with the next attempt. -/
def connectAttempts : HeadState → List ConnectAttempt → Bool × HeadState × Nat
  | s, [] => (false, s, 0)
  | s, (disc, tcp) :: rest =>
    match disc with
    | none =>
      let r := connectAttempts s rest
      (r.1, r.2.1, r.2.2 + 1)
    | some (ip, port) =>
      let s1 := { s with ip := some ip, port := some port }
      match tcp with
      | TcpResult.ok => (true, { s1 with sock := true, connected := true }, 1)
      | TcpResult.err =>
        let r := connectAttempts { s1 with sock := false } rest
        (r.1, r.2.1, r.2.2 + 1)

/-- `AsradaHead.connect(retry_count=3)`: returns `True` immediately when
already connected (no discovery query), otherwise runs the retry loop
for up to `retry_count = 3` attempts (the default used by every caller
in the repository) and returns `False` after exhausting them.  The
result is `(returned boolean, new state, number of discovery queries
issued)`. -/
def connect (s : HeadState) (env : List ConnectAttempt) : Bool × HeadState × Nat :=
  if is_connected s then (true, s, 0)
  else connectAttempts s (env.take 3)

/-- Outcome of the single `sock.send` inside `AsradaHead.send_packet`. -/
inductive WriteResult
  | ok
  | err
deriving DecidableEq, Repr

/-- Environment of one `send_packet` call: the discovery/TCP outcomes
consumed if an automatic reconnect is needed, and the write outcome. -/
structure SendEnv where
  connectEnv : List ConnectAttempt
  write : WriteResult
deriving Repr

/-- Observable outcome of a `send_packet` call: the returned boolean,
the new head state, how many times `connect` was invoked, and the
frames actually written to the socket. -/
structure SendOutcome where
  success : Bool
  state : HeadState
  connectCalls : Nat
  sent : List (List Nat)
deriving DecidableEq, Repr

/-- The wire frame built by `send_packet`:
`b'\xAA' + bytes([cmd]) + data + b'\xBB'`. -/
def frame (cmd : Nat) (data : List Nat) : List Nat :=
  0xAA :: cmd :: (data ++ [0xBB])

/-- The `try` block of `send_packet` once a connection is in hand:
`bytes([cmd])` raises `ValueError` for `cmd` outside a byte, which the
`except` clause catches (marking disconnected, returning `False`);
otherwise the frame is written, a write error likewise being caught. -/
def sendOnSock (s : HeadState) (calls : Nat) (w : WriteResult)
    (cmd : Nat) (data : List Nat) : SendOutcome :=
  if 256 ≤ cmd then
    { success := false, state := { s with connected := false },
      connectCalls := calls, sent := [] }
  else
    match w with
    | WriteResult.ok =>
      { success := true, state := s, connectCalls := calls, sent := [frame cmd data] }
    | WriteResult.err =>
      { success := false, state := { s with connected := false },
        connectCalls := calls, sent := [] }

/-- `AsradaHead.send_packet(cmd, data)`: when disconnected it first
calls `connect()` exactly once, returning `False` if that fails; then
it builds and writes the frame, catching any exception. -/
def send_packet (s : HeadState) (env : SendEnv) (cmd : Nat) (data : List Nat) :
    SendOutcome :=
  if is_connected s then
    sendOnSock s 0 env.write cmd data
  else if (connect s env.connectEnv).1 then
    sendOnSock (connect s env.connectEnv).2.1 1 env.write cmd data
  else
    { success := false, state := (connect s env.connectEnv).2.1,
      connectCalls := 1, sent := [] }

/-- Python `bytes(list)`: raises `ValueError` unless every element is in
`0..255`. -/
def pyBytes (l : List Int) : Except String (List Nat) :=
  if l.all (fun b => decide (0 ≤ b) && decide (b < 256)) then
    Except.ok (l.map Int.toNat)
  else Except.error "ValueError"

/-- `AsradaHead.led_set(led_index, on)`: builds
`bytes([led_index, 1 if on else 0])` (the 1..6 range guard is commented
out in the source, so `bytes` can raise) and sends command `0x01`. -/
def led_set (s : HeadState) (env : SendEnv) (led_index : Int) (o : Bool) :
    Except String SendOutcome :=
  match pyBytes [led_index, if o then 1 else 0] with
  | Except.error e => Except.error e
  | Except.ok data => Except.ok (send_packet s env 1 data)

/-- The clamp in `AsradaHead.servo_set`: `angle = max(0, min(angle, 180))`. -/
def clamp180 (angle : Int) : Int :=
  max 0 (min angle 180)

/-- `AsradaHead.servo_set(servo_index, angle)`: clamps the angle, builds
`bytes([servo_index, angle])` (the index range guard is commented out)
and sends command `0x02`. -/
def servo_set (s : HeadState) (env : SendEnv) (servo_index : Int) (angle : Int) :
    Except String SendOutcome :=
  match pyBytes [servo_index, clamp180 angle] with
  | Except.error e => Except.error e
  | Except.ok data => Except.ok (send_packet s env 2 data)

/-- UTF-8 encoding of one Unicode scalar value, as produced by Python's
`str.encode("utf-8")`. -/
def utf8EncodeChar (c : Char) : List Nat :=
  if c.toNat < 0x80 then [c.toNat]
  else if c.toNat < 0x800 then [0xC0 + c.toNat / 64, 0x80 + c.toNat % 64]
  else if c.toNat < 0x10000 then
    [0xE0 + c.toNat / 4096, 0x80 + (c.toNat / 64) % 64, 0x80 + c.toNat % 64]
  else
    [0xF0 + c.toNat / 262144, 0x80 + (c.toNat / 4096) % 64,
     0x80 + (c.toNat / 64) % 64, 0x80 + c.toNat % 64]

/-- `str.encode("utf-8")` over a Python string modelled as its list of
code points. -/
def utf8Encode (s : List Char) : List Nat :=
  (s.map utf8EncodeChar).flatten

/-- `AsradaHead.set_ssid(ssid_str)`: rejects when `len(ssid_str) > 31`
(character count), otherwise sends command `0x03` with payload
`bytes([0x01]) + ssid_str.encode("utf-8")`.  Result: returned boolean
and frames written. -/
def set_ssid (st : HeadState) (env : SendEnv) (ssid : List Char) :
    Bool × List (List Nat) :=
  if 31 < ssid.length then (false, [])
  else
    let out := send_packet st env 3 (1 :: utf8Encode ssid)
    (out.success, out.sent)

/-- `AsradaHead.set_password(pass_str)`: same as `set_ssid` with
sub-command byte `0x02`. -/
def set_password (st : HeadState) (env : SendEnv) (pw : List Char) :
    Bool × List (List Nat) :=
  if 31 < pw.length then (false, [])
  else
    let out := send_packet st env 3 (2 :: utf8Encode pw)
    (out.success, out.sent)

/-- One result of `self.sock.recv(1024)` in `AsradaHead._recv_worker`:
either data (possibly empty) or an exception. -/
inductive RecvResult
  | ok (data : List Nat)
  | err
deriving DecidableEq, Repr

/-- Observable state of the receive worker: the `_connected` flag and
the messages delivered to the `on_message` callback (recorded as the
raw bytes; decode/strip is abstracted). -/
structure RecvState where
  connected : Bool
  delivered : List (List Nat)
deriving DecidableEq, Repr

/-- One iteration of the `while not self._stop_flag` loop body of
`_recv_worker`: empty data hits `continue`; non-empty data is delivered
to the callback; an exception is caught, printed, and the loop
continues.  No branch changes `_connected` or leaves the loop. -/
def recvStep (st : RecvState) (r : RecvResult) : RecvState :=
  match r with
  | RecvResult.ok d => if d = [] then st else { st with delivered := st.delivered ++ [d] }
  | RecvResult.err => st

/-- The receive loop run over a finite sequence of recv results while
the stop flag stays unset. -/
def recvWorkerRun (st : RecvState) (events : List RecvResult) : RecvState :=
  events.foldl recvStep st

/-- The epilogue of `_recv_worker`, reached only when `_stop_flag` is
set: `self._set_connected(False)`. -/
def recvWorkerFinish (st : RecvState) : RecvState :=
  { st with connected := false }

/-! ### Fixtures for concrete evaluations -/

/-- A head that is connected (live socket, flag set). -/
def connHead : HeadState :=
  { hostname := none, port := some 1234, ip := some 1, sock := true, connected := true }

/-- Send environment where the write succeeds. -/
def envOk : SendEnv :=
  { connectEnv := [], write := WriteResult.ok }

/-- Send environment in which every discovery attempt fails and any
write would fail. -/
def envConnFail : SendEnv :=
  { connectEnv := [(none, TcpResult.ok), (none, TcpResult.ok), (none, TcpResult.ok)],
    write := WriteResult.err }

/-! ## Audio Playback Engine (`my_tts.py`) -/

/-- Observable state of the playback engine: the shared
`stop_speech_flag`, whether `current_audio_process` is not `None`, the
last LED level forwarded through `head.send_led_level`, and the
`audio_queue` contents (file paths modelled as numeric ids). -/
structure TTSState where
  stopFlag : Bool
  currentAudio : Bool
  ledLevel : Nat
  queue : List Nat
deriving DecidableEq, Repr

/-- `stop_current_speech()`: returns immediately when
`current_audio_process is None`; otherwise it sets the stop flag, sends
LED level 0, clears `current_audio_process`, and drains the queue
discarding every item. -/
def stop_current_speech (s : TTSState) : TTSState :=
  if s.currentAudio = false then s
  else { stopFlag := true, currentAudio := false, ledLevel := 0, queue := [] }

/-- Environment of a `speak` call: the outcome of
`create_robot_tts_file` (the synthesized file path, or the exception it
raised), and whether another thread set the stop flag while synthesis
was running. -/
structure SpeakEnv where
  synth : Except String Nat
  stopSetDuringSynth : Bool
deriving Repr

/-- Result of a `speak` call: the new engine state and whether
synthesis (`create_robot_tts_file`) was invoked at all. -/
structure SpeakResult where
  state : TTSState
  synthesized : Bool
deriving DecidableEq, Repr

/-- `speak(text, ...)`: falsy text returns at once; otherwise the stop
flag is cleared if set, the utterance is synthesized (any exception
being caught and logged), a stop raised during synthesis discards the
file without enqueueing, and otherwise the path is appended to the
queue. -/
def speak (text : List Char) (env : SpeakEnv) (s : TTSState) : SpeakResult :=
  if text = [] then { state := s, synthesized := false }
  else
    let s1 := { s with stopFlag := false }
    match env.synth with
    | Except.error _ => { state := s1, synthesized := true }
    | Except.ok path =>
      let s2 := { s1 with stopFlag := env.stopSetDuringSynth }
      if s2.stopFlag then { state := s2, synthesized := true }
      else { state := { s2 with queue := s2.queue ++ [path] }, synthesized := true }

/-! ## Event Orchestrator (`asrada_controller.py`, class
`AsradaHeadOrchestrator`) -/

/-- Orchestrator-visible state: the debounce timestamp
`_last_event_start_time`, the `_event_in_progress` flag, whether speech
output is currently playing (the `is_tts_active()` /
`current_audio_process` observation), the `_cancel_requested` event,
the collaborator stop flags `STOP_LLM_FLAG` and `force_stop_flag`, and
the two indicator LEDs. -/
structure OrchState where
  lastEventStart : ℚ
  eventInProgress : Bool
  ttsPlaying : Bool
  cancelRequested : Bool
  stopLLM : Bool
  forceStop : Bool
  led4 : Bool
  led5 : Bool
deriving DecidableEq, Repr

/-- `AsradaHeadOrchestrator.cancel_current_event()`: a no-op when
nothing is in progress and no TTS is playing; otherwise it sets the
cancellation and collaborator stop flags, stops LLM work and current
speech (clearing `current_audio_process`), turns LEDs 4 and 5 off, and
finally clears `_event_in_progress` and `_cancel_requested`. -/
def cancel_current_event (s : OrchState) : OrchState :=
  if !s.eventInProgress && !s.ttsPlaying then s
  else
    { s with cancelRequested := false, stopLLM := true, forceStop := true,
             ttsPlaying := false, led4 := false, led5 := false,
             eventInProgress := false }

/-- What a call to `on_button_press_event` did at its entry gate. -/
inductive TriggerAction
  | ignoredChatter
  | cancelledExisting
  | startedSession
deriving DecidableEq, Repr

/-- Program position of one trigger call inside the entry gate of
`on_button_press_event` (lines 184–228).  The chattering-guard read of
`_last_event_start_time` (line 187), its write (line 195), the
in-progress/TTS check (lines 200–213), and the setting of
`_event_in_progress` under `_event_lock` (lines 222–224) are separate
steps: only the flag assignment holds the lock, no lock spans the check
and the set, and the timestamp read and write are likewise unlocked, so
steps of other trigger calls may interleave between any two of them. -/
inductive Phase
  | gateRead
  | gateWrite
  | check
  | start
  | done (a : TriggerAction)
deriving DecidableEq, Repr

/-- One trigger call in flight: its arrival timestamp (`current_time`,
line 186, local to the call) and its current position. -/
structure ThreadSt where
  now : ℚ
  phase : Phase
deriving DecidableEq, Repr

/-- One atomic step of a trigger call against the shared orchestrator
state, following the source in order: `gateRead` reads the shared
timestamp and drops the call when inside the 1-second window;
`gateWrite` records the call's own timestamp; `check` observes
`_event_in_progress`/TTS-playing and either runs `cancel_current_event`
and returns or proceeds; `start` clears the cancellation and stop
flags and sets `_event_in_progress` (the pre-lock clears of lines
217–219 and the locked assignment of lines 222–224 are taken as one
step).  A finished call never moves again. -/
def threadStep (g : OrchState) (t : ThreadSt) : OrchState × ThreadSt :=
  match t.phase with
  | Phase.gateRead =>
    if t.now - g.lastEventStart < 1 then
      (g, { t with phase := Phase.done TriggerAction.ignoredChatter })
    else (g, { t with phase := Phase.gateWrite })
  | Phase.gateWrite =>
    ({ g with lastEventStart := t.now }, { t with phase := Phase.check })
  | Phase.check =>
    if g.eventInProgress || g.ttsPlaying then
      (cancel_current_event g,
        { t with phase := Phase.done TriggerAction.cancelledExisting })
    else (g, { t with phase := Phase.start })
  | Phase.start =>
    ({ g with cancelRequested := false, stopLLM := false, forceStop := false,
              eventInProgress := true },
     { t with phase := Phase.done TriggerAction.startedSession })
  | Phase.done _ => (g, t)

/-- `threadStep` on a packed state/thread pair. -/
def stepPair (p : OrchState × ThreadSt) : OrchState × ThreadSt :=
  threadStep p.1 p.2

/-- One trigger call run to completion with no interleaving: four
entry-gate steps back to back (`Phase.done` is absorbing, and every
path reaches it within four steps). -/
def runEntry (g : OrchState) (t : ThreadSt) : OrchState × ThreadSt :=
  stepPair (stepPair (stepPair (stepPair (g, t))))

/-- The outcome a trigger call reported, once finished. -/
def outcomeOf (t : ThreadSt) : Option TriggerAction :=
  match t.phase with
  | Phase.done a => some a
  | _ => none

/-- The entry gate of `on_button_press_event` as observed by a single
call that runs without interference: derived from the step semantics by
running one trigger to completion. -/
def on_button_press_entry (now : ℚ) (s : OrchState) : TriggerAction × OrchState :=
  let r := runEntry s { now := now, phase := Phase.gateRead }
  match r.2.phase with
  | Phase.done a => (a, r.1)
  | _ => (TriggerAction.ignoredChatter, r.1)

/-- A pool of concurrently issued trigger calls sharing the
orchestrator state: one scheduler step advances the thread at the given
index by one `threadStep` (an out-of-range index changes nothing). -/
def sysStep (st : OrchState × List ThreadSt) (i : Nat) : OrchState × List ThreadSt :=
  match st.2[i]? with
  | none => st
  | some t =>
    let r := threadStep st.1 t
    (r.1, st.2.set i r.2)

/-- Run the pool of trigger calls under an interleaving schedule. -/
def sysRun (st : OrchState × List ThreadSt) (sched : List Nat) :
    OrchState × List ThreadSt :=
  sched.foldl sysStep st

/-- Trigger mode of a session: full voice flow, or direct text. -/
inductive EventMode
  | full
  | direct (text : List Char)
deriving DecidableEq, Repr

/-- Environment of one session body: outcomes of the collaborator calls
and the values of the `_cancel_requested` / `STOP_LLM_FLAG` checks at
each cancellation checkpoint, in program order.  Collaborator calls
that the orchestrator does not guard (`play_beep`, `speak`) are
`Except`-valued; `listen` and `ai.process_question` are guarded at
their call sites. -/
structure SessionEnv where
  cancelAtChk1 : Bool
  beep : Except Unit Unit
  cancelAtChk2 : Bool
  stt : Except Unit (List Char)
  cancelAfterStt : Bool
  fallbackSpeak : Except Unit Unit
  cancelBeforeAI : Bool
  ai : Except Unit (List Char)
  cancelAfterAI : Bool
  stopLLMSet : Bool
  cancelBeforeSpeak : Bool
  answerSpeak : Except Unit Unit
deriving Repr

/-- Where the spoken answer came from, when one was spoken. -/
inductive AnswerSrc
  | fromAI (t : List Char)
  | diagnostic
deriving DecidableEq, Repr

/-- Outcome of the `try` body of `on_button_press_event`: LED values on
exit, whether an exception escaped the body into the outer `except`
clause, and which answer (if any) was handed to `speak`. -/
structure BodyOut where
  led4 : Bool
  led5 : Bool
  raised : Bool
  spokeAnswer : Option AnswerSrc
deriving DecidableEq, Repr

/-- The tail of the session shared by both modes (lines 335–373):
cancellation check before AI, the guarded `ai.process_question` call
(an exception with no cancellation pending substitutes a diagnostic
answer), the post-AI cancellation/STOP_LLM check, the unguarded
`speak(answer)` call when not cancelled, the servo-thread join, and the
final `led_set(4, False)`. -/
def session_tail2 (env : SessionEnv) (ans : AnswerSrc) : BodyOut :=
  if env.cancelBeforeSpeak then
    { led4 := false, led5 := false, raised := false, spokeAnswer := none }
  else
    match env.answerSpeak with
    | Except.error _ =>
      { led4 := true, led5 := false, raised := true, spokeAnswer := none }
    | Except.ok _ =>
      { led4 := false, led5 := false, raised := false, spokeAnswer := some ans }

/-- AI-processing part of the session tail. -/
def session_tail (env : SessionEnv) : BodyOut :=
  if env.cancelBeforeAI then
    { led4 := false, led5 := false, raised := false, spokeAnswer := none }
  else
    match env.ai with
    | Except.ok t =>
      if env.cancelAfterAI || env.stopLLMSet then
        { led4 := false, led5 := false, raised := false, spokeAnswer := none }
      else session_tail2 env (AnswerSrc.fromAI t)
    | Except.error _ =>
      if env.cancelAfterAI || env.stopLLMSet then
        { led4 := false, led5 := false, raised := false, spokeAnswer := none }
      else session_tail2 env AnswerSrc.diagnostic

/-- The `try` body of `on_button_press_event` (lines 230–373), after
the entry gate accepted the trigger.  LED 4 is turned on first; in full
mode the prompt beep, speech capture (exceptions yielding an empty
transcript), and the empty-transcript fallback run before the shared
tail; direct-text mode goes straight to the tail.  The unguarded
collaborator calls propagate their exception out of the body with the
LEDs in whatever state they were. -/
def session_body (mode : EventMode) (env : SessionEnv) : BodyOut :=
  match mode with
  | EventMode.direct _ => session_tail env
  | EventMode.full =>
    if env.cancelAtChk1 then
      { led4 := false, led5 := false, raised := false, spokeAnswer := none }
    else
      match env.beep with
      | Except.error _ =>
        { led4 := true, led5 := false, raised := true, spokeAnswer := none }
      | Except.ok _ =>
        if env.cancelAtChk2 then
          { led4 := false, led5 := false, raised := false, spokeAnswer := none }
        else
          let recognized := match env.stt with
            | Except.ok t => t
            | Except.error _ => []
          if env.cancelAfterStt then
            { led4 := false, led5 := false, raised := false, spokeAnswer := none }
          else if recognized = [] then
            match env.fallbackSpeak with
            | Except.error _ =>
              { led4 := true, led5 := false, raised := true, spokeAnswer := none }
            | Except.ok _ =>
              { led4 := false, led5 := false, raised := false, spokeAnswer := none }
          else session_tail env

/-- Flags at the very end of an `on_button_press_event` call. -/
structure SessionResult where
  led4 : Bool
  led5 : Bool
  eventInProgress : Bool
  cancelRequested : Bool
deriving DecidableEq, Repr

/-- A whole accepted session: the `try` body, the outer `except` clause
(which only prints), and the `finally` block (lines 377–386), which
clears `_event_in_progress` and `_cancel_requested` and cleans up the
thread list — and touches nothing else. -/
def on_button_press_session (mode : EventMode) (env : SessionEnv) : SessionResult :=
  let b := session_body mode env
  { led4 := b.led4, led5 := b.led5, eventInProgress := false, cancelRequested := false }

/-! ### Orchestrator fixtures -/

/-- A state with a session in progress (busy LED on), debounce clock at 0. -/
def sActive : OrchState :=
  { lastEventStart := 0, eventInProgress := true, ttsPlaying := false,
    cancelRequested := false, stopLLM := false, forceStop := false,
    led4 := true, led5 := false }

/-- Idle orchestrator: nothing in progress, no TTS, clock at 0. -/
def idleG : OrchState :=
  { lastEventStart := 0, eventInProgress := false, ttsPlaying := false,
    cancelRequested := false, stopLLM := false, forceStop := false,
    led4 := false, led5 := false }

/-- Two trigger calls arriving at times 10 and 11 (outside each
other's debounce window), both at the start of the entry gate. -/
def racePool : List ThreadSt :=
  [{ now := 10, phase := Phase.gateRead }, { now := 11, phase := Phase.gateRead }]

/-- `idleG` after the first trigger's timestamp write. -/
def gRace1 : OrchState :=
  { lastEventStart := 10, eventInProgress := false, ttsPlaying := false,
    cancelRequested := false, stopLLM := false, forceStop := false,
    led4 := false, led5 := false }

/-- `gRace1` after the second trigger's timestamp write. -/
def gRace2 : OrchState :=
  { lastEventStart := 11, eventInProgress := false, ttsPlaying := false,
    cancelRequested := false, stopLLM := false, forceStop := false,
    led4 := false, led5 := false }

/-- `gRace2` once a trigger has marked a session in progress. -/
def gRace3 : OrchState :=
  { lastEventStart := 11, eventInProgress := true, ttsPlaying := false,
    cancelRequested := false, stopLLM := false, forceStop := false,
    led4 := false, led5 := false }

/-- A session environment in which every collaborator call succeeds and
no cancellation ever arrives. -/
def envBenign : SessionEnv :=
  { cancelAtChk1 := false, beep := Except.ok (), cancelAtChk2 := false,
    stt := Except.ok ['h', 'i'], cancelAfterStt := false,
    fallbackSpeak := Except.ok (), cancelBeforeAI := false,
    ai := Except.ok ['o', 'k'], cancelAfterAI := false, stopLLMSet := false,
    cancelBeforeSpeak := false, answerSpeak := Except.ok () }

/-- `envBenign` but the prompt-tone collaborator raises. -/
def envBeepRaises : SessionEnv :=
  { envBenign with beep := Except.error () }

/-! ## Helper lemmas -/

lemma sendOnSock_calls (s : HeadState) (c : Nat) (w : WriteResult)
    (cmd : Nat) (data : List Nat) :
    (sendOnSock s c w cmd data).connectCalls = c := by
  unfold sendOnSock
  split
  · rfl
  · cases w <;> rfl

lemma sendOnSock_sent (s : HeadState) (c : Nat) (w : WriteResult)
    (cmd : Nat) (data : List Nat) :
    ∀ f ∈ (sendOnSock s c w cmd data).sent, f = frame cmd data := by
  intro f hf
  unfold sendOnSock at hf
  split at hf
  · simp at hf
  · cases w <;> simp_all

lemma sendOnSock_write_err (s : HeadState) (c : Nat) (cmd : Nat) (data : List Nat) :
    (sendOnSock s c WriteResult.err cmd data).success = false ∧
    is_connected (sendOnSock s c WriteResult.err cmd data).state = false := by
  unfold sendOnSock is_connected
  split <;> simp

lemma send_packet_sent (s : HeadState) (env : SendEnv) (cmd : Nat) (data : List Nat) :
    ∀ f ∈ (send_packet s env cmd data).sent, f = frame cmd data := by
  intro f hf
  unfold send_packet at hf
  split at hf
  · exact sendOnSock_sent _ _ _ _ _ f hf
  · split at hf
    · exact sendOnSock_sent _ _ _ _ _ f hf
    · simp at hf

lemma clamp180_of_ge (angle : Int) (h : 180 ≤ angle) : clamp180 angle = 180 := by
  unfold clamp180
  omega

/-- On a failing run, `connectAttempts` preserves the connected flag and
either leaves the socket field alone or ends with it cleared. -/
lemma connectAttempts_fail :
    ∀ (l : List ConnectAttempt) (s : HeadState),
      (connectAttempts s l).1 = false →
      (connectAttempts s l).2.1.connected = s.connected ∧
      ((connectAttempts s l).2.1.sock = s.sock ∨ (connectAttempts s l).2.1.sock = false) := by
  intro l
  induction l with
  | nil => exact fun s _ => ⟨rfl, Or.inl rfl⟩
  | cons a rest ih =>
    intro s h
    obtain ⟨disc, tcp⟩ := a
    cases disc with
    | none =>
      have h' : (connectAttempts s rest).1 = false := h
      exact ih s h'
    | some addr =>
      obtain ⟨ip, port⟩ := addr
      cases tcp with
      | ok => exact absurd h (by simp [connectAttempts])
      | err =>
        have h' : (connectAttempts
            { s with ip := some ip, port := some port, sock := false } rest).1 = false := h
        have := ih { s with ip := some ip, port := some port, sock := false } h'
        exact ⟨this.1, Or.inr (this.2.elim (fun hx => hx) (fun hx => hx))⟩

lemma connect_fail_not_connected (s : HeadState) (env : List ConnectAttempt)
    (hd : is_connected s = false) (hf : (connect s env).1 = false) :
    is_connected (connect s env).2.1 = false := by
  unfold connect at *
  rw [hd] at hf ⊢
  simp only [Bool.false_eq_true, if_false] at hf ⊢
  obtain ⟨hc, hs⟩ := connectAttempts_fail (env.take 3) s hf
  unfold is_connected at hd ⊢
  rcases hs with hs | hs <;> rw [hc, hs]
  · exact hd
  · simp

/-- With every discovery query failing, the retry loop changes nothing,
returns `False`, and issues one query per attempt. -/
lemma connectAttempts_all_none :
    ∀ (l : List ConnectAttempt) (s : HeadState), (∀ a ∈ l, a.1 = none) →
      connectAttempts s l = (false, s, l.length) := by
  intro l
  induction l with
  | nil => exact fun s _ => rfl
  | cons a rest ih =>
    intro s h
    obtain ⟨disc, tcp⟩ := a
    have hd : disc = none := h (disc, tcp) (by simp)
    subst hd
    have hrest : ∀ a ∈ rest, a.1 = none := fun a ha => h a (List.mem_cons_of_mem _ ha)
    simp [connectAttempts, ih s hrest]

lemma recvStep_connected (st : RecvState) (r : RecvResult) :
    (recvStep st r).connected = st.connected := by
  cases r with
  | ok d =>
    simp only [recvStep]
    split <;> rfl
  | err => rfl

lemma recvWorkerRun_connected (events : List RecvResult) :
    ∀ st : RecvState, (recvWorkerRun st events).connected = st.connected := by
  induction events with
  | nil => intro _; rfl
  | cons r rs ih =>
    intro st
    have hstep : recvWorkerRun st (r :: rs) = recvWorkerRun (recvStep st r) rs := rfl
    rw [hstep, ih, recvStep_connected]

lemma sysRun_cons (st : OrchState × List ThreadSt) (i : Nat) (sched : List Nat) :
    sysRun st (i :: sched) = sysRun (sysStep st i) sched := rfl

/-- When a session is in progress or TTS is playing,
`cancel_current_event` ends with the in-progress flag and the playing
marker both clear. -/
lemma cancel_active (g : OrchState)
    (hactive : g.eventInProgress = true ∨ g.ttsPlaying = true) :
    (cancel_current_event g).eventInProgress = false ∧
    (cancel_current_event g).ttsPlaying = false := by
  have hcond : ¬((!g.eventInProgress && !g.ttsPlaying) = true) := by
    rcases hactive with h | h <;> simp [h]
  unfold cancel_current_event
  rw [if_neg hcond]
  exact ⟨rfl, rfl⟩

/-- A serialized trigger inside the debounce window is dropped
untouched. -/
lemma entry_ignored (g : OrchState) (now : ℚ)
    (hlt : now - g.lastEventStart < 1) :
    on_button_press_entry now g = (TriggerAction.ignoredChatter, g) := by
  have ht : stepPair (g, (⟨now, Phase.gateRead⟩ : ThreadSt)) =
      (g, ⟨now, Phase.done TriggerAction.ignoredChatter⟩) := by
    show (if now - g.lastEventStart < 1
        then (g, (⟨now, Phase.done TriggerAction.ignoredChatter⟩ : ThreadSt))
        else (g, (⟨now, Phase.gateWrite⟩ : ThreadSt)))
      = (g, (⟨now, Phase.done TriggerAction.ignoredChatter⟩ : ThreadSt))
    rw [if_pos hlt]
  have hr : runEntry g ⟨now, Phase.gateRead⟩ =
      (g, ⟨now, Phase.done TriggerAction.ignoredChatter⟩) := by
    unfold runEntry
    rw [ht]
    rfl
  unfold on_button_press_entry
  rw [hr]

/-- A serialized trigger past the debounce window, issued while a
session is in progress or TTS is playing, cancels the current
activity. -/
lemma entry_cancel (g : OrchState) (now : ℚ)
    (hor : (g.eventInProgress || g.ttsPlaying) = true)
    (hge : ¬(now - g.lastEventStart < 1)) :
    on_button_press_entry now g =
      (TriggerAction.cancelledExisting,
        cancel_current_event { g with lastEventStart := now }) := by
  have ht1 : stepPair (g, (⟨now, Phase.gateRead⟩ : ThreadSt)) =
      (g, ⟨now, Phase.gateWrite⟩) := by
    show (if now - g.lastEventStart < 1
        then (g, (⟨now, Phase.done TriggerAction.ignoredChatter⟩ : ThreadSt))
        else (g, (⟨now, Phase.gateWrite⟩ : ThreadSt)))
      = (g, (⟨now, Phase.gateWrite⟩ : ThreadSt))
    rw [if_neg hge]
  have ht2 : stepPair (g, (⟨now, Phase.gateWrite⟩ : ThreadSt)) =
      ({ g with lastEventStart := now }, ⟨now, Phase.check⟩) := rfl
  have ht3 : stepPair ({ g with lastEventStart := now }, (⟨now, Phase.check⟩ : ThreadSt)) =
      (cancel_current_event { g with lastEventStart := now },
        ⟨now, Phase.done TriggerAction.cancelledExisting⟩) := by
    show (if (({ g with lastEventStart := now } : OrchState).eventInProgress ||
              ({ g with lastEventStart := now } : OrchState).ttsPlaying) = true
        then (cancel_current_event { g with lastEventStart := now },
              (⟨now, Phase.done TriggerAction.cancelledExisting⟩ : ThreadSt))
        else ({ g with lastEventStart := now }, (⟨now, Phase.start⟩ : ThreadSt)))
      = (cancel_current_event { g with lastEventStart := now },
          (⟨now, Phase.done TriggerAction.cancelledExisting⟩ : ThreadSt))
    rw [if_pos hor]
  have hr : runEntry g ⟨now, Phase.gateRead⟩ =
      (cancel_current_event { g with lastEventStart := now },
        ⟨now, Phase.done TriggerAction.cancelledExisting⟩) := by
    unfold runEntry
    rw [ht1, ht2, ht3]
    rfl
  unfold on_button_press_entry
  rw [hr]

/-! ## Claims -/

/-- Claim C3, counterexample: in `_recv_worker`, a zero-length read does
not mark the link disconnected and does not exit the loop (a later read
is still delivered), and a read error likewise leaves the link marked
connected and the loop running. -/
theorem claim_C3_counterexample :
    (recvWorkerRun ⟨true, []⟩ [RecvResult.ok [], RecvResult.ok [66]]).connected = true ∧
    (recvWorkerRun ⟨true, []⟩ [RecvResult.ok [], RecvResult.ok [66]]).delivered = [[66]] ∧
    (recvWorkerRun ⟨true, []⟩ [RecvResult.err, RecvResult.ok [66]]).connected = true ∧
    (recvWorkerRun ⟨true, []⟩ [RecvResult.err, RecvResult.ok [66]]).delivered = [[66]] :=
  ⟨rfl, rfl, rfl, rfl⟩

/-- Claim C3, amended: the receive loop skips zero-length reads and
catches read errors, continuing in both cases without touching the
connected flag; the link is marked disconnected only in the epilogue
reached when the stop flag ends the loop; no iteration propagates an
exception (every loop step is a total function). -/
theorem claim_C3 (st : RecvState) (events : List RecvResult) :
    (recvWorkerRun st events).connected = st.connected ∧
    (recvWorkerFinish (recvWorkerRun st events)).connected = false ∧
    recvStep st RecvResult.err = st ∧
    recvStep st (RecvResult.ok []) = st :=
  ⟨recvWorkerRun_connected events st, rfl, rfl, rfl⟩

/-- Claim C4, counterexample: with nothing playing but a request queued,
`stop_current_speech` returns immediately — the queue keeps its
request, the stop flag stays clear, and the indicator level is not
forced to 0. -/
theorem claim_C4_counterexample :
    stop_current_speech ⟨false, false, 3, [7]⟩ = ⟨false, false, 3, [7]⟩ ∧
    (stop_current_speech ⟨false, false, 3, [7]⟩).queue ≠ [] ∧
    (stop_current_speech ⟨false, false, 3, [7]⟩).stopFlag = false ∧
    (stop_current_speech ⟨false, false, 3, [7]⟩).ledLevel ≠ 0 := by
  decide

/-- Claim C4, amended: when audio is playing, `stop_current_speech`
sets the shared stop flag, forces the indicator to level 0, clears the
current-audio marker, and leaves the queue empty; when nothing is
playing it returns immediately without error, leaving the state (queue
included) unchanged. -/
theorem claim_C4 (s : TTSState) :
    (s.currentAudio = true →
      stop_current_speech s =
        { stopFlag := true, currentAudio := false, ledLevel := 0, queue := [] }) ∧
    (s.currentAudio = false → stop_current_speech s = s) := by
  constructor <;> intro h <;> simp [stop_current_speech, h]

/-- Claim C4 witness: a state with audio playing and two queued
requests is fully stopped and drained. -/
theorem claim_C4_witness :
    stop_current_speech ⟨false, true, 2, [5, 6]⟩ =
      { stopFlag := true, currentAudio := false, ledLevel := 0, queue := [] } :=
  (claim_C4 ⟨false, true, 2, [5, 6]⟩).1 rfl

/-- Claim C5: for every angle ≥ 180, `servo_set(2, angle)` clamps the
angle to 180 and hands `send_packet` the payload `[2, 180]`, so the
frame written (when a write happens) is exactly `AA 02 02 B4 BB`; and
in general every frame `send_packet` writes is
`0xAA, cmd, payload, 0xBB`. -/
theorem claim_C5 (s : HeadState) (env : SendEnv) (angle : Int) (h : 180 ≤ angle)
    (cmd : Nat) (data : List Nat) :
    servo_set s env 2 angle = Except.ok (send_packet s env 2 [2, 180]) ∧
    (∀ f ∈ (send_packet s env cmd data).sent, f = 0xAA :: cmd :: (data ++ [0xBB])) := by
  constructor
  · unfold servo_set
    rw [clamp180_of_ge angle h]
    have hp : pyBytes [2, 180] = Except.ok [2, 180] := rfl
    rw [hp]
  · exact send_packet_sent s env cmd data

/-- Claim C5 witness: at angle 200 on a connected link with a
successful write, the wire bytes are `AA 02 02 B4 BB`. -/
theorem claim_C5_witness :
    (180 : Int) ≤ 200 ∧
    servo_set connHead envOk 2 200 = Except.ok (send_packet connHead envOk 2 [2, 180]) ∧
    (send_packet connHead envOk 2 [2, 180]).sent = [[0xAA, 0x02, 0x02, 0xB4, 0xBB]] :=
  ⟨by decide, (claim_C5 connHead envOk 200 (by decide) 2 [2, 180]).1, by decide⟩

/-- Claim C6: a `send_packet` call on a disconnected link makes exactly
one `connect` call before any write; if that connect fails the call
returns `False` with nothing written; and (for any starting state) a
write failure returns `False` and leaves the link marked disconnected —
all without raising, since `send_packet` is a total function. -/
theorem claim_C6 (s s2 : HeadState) (env : SendEnv) (cmd : Nat) (data : List Nat)
    (hdisc : is_connected s = false) :
    (send_packet s env cmd data).connectCalls = 1 ∧
    ((connect s env.connectEnv).1 = false →
      (send_packet s env cmd data).success = false ∧
      (send_packet s env cmd data).sent = []) ∧
    (env.write = WriteResult.err →
      (send_packet s2 env cmd data).success = false ∧
      is_connected (send_packet s2 env cmd data).state = false) := by
  refine ⟨?_, ?_, ?_⟩
  · unfold send_packet
    rw [hdisc]
    simp only [Bool.false_eq_true, if_false]
    split
    · exact sendOnSock_calls _ _ _ _ _
    · rfl
  · intro hconn
    unfold send_packet
    rw [hdisc, hconn]
    simp
  · intro hw
    unfold send_packet
    split
    · rw [hw]
      exact sendOnSock_write_err _ _ _ _
    · split
      · rw [hw]
        exact sendOnSock_write_err _ _ _ _
      · rename_i hnc hcf
        refine ⟨rfl, ?_⟩
        exact connect_fail_not_connected s2 env.connectEnv
          (by revert hnc; cases is_connected s2 <;> simp)
          (by revert hcf; cases (connect s2 env.connectEnv).1 <;> simp)

/-- Claim C6 witness: from the freshly initialised (disconnected) head
with every discovery attempt failing, a `servo`-style send makes one
connect call and fails cleanly. -/
theorem claim_C6_witness :
    is_connected initHead = false ∧
    (send_packet initHead envConnFail 2 [2, 180]).connectCalls = 1 ∧
    (send_packet initHead envConnFail 2 [2, 180]).success = false ∧
    (send_packet initHead envConnFail 2 [2, 180]).sent = [] := by
  have h := claim_C6 initHead initHead envConnFail 2 [2, 180] rfl
  exact ⟨rfl, h.1, (h.2.1 (by decide)).1, (h.2.1 (by decide)).2⟩

/-- `pyBytes` succeeds on in-range byte lists. -/
lemma pyBytes_ok (l : List Int) (h : ∀ b ∈ l, 0 ≤ b ∧ b < 256) :
    pyBytes l = Except.ok (l.map Int.toNat) := by
  have hall : l.all (fun b => decide (0 ≤ b) && decide (b < 256)) = true := by
    rw [List.all_eq_true]
    intro b hb
    simp [(h b hb).1, (h b hb).2]
  unfold pyBytes
  rw [hall]
  simp

/-- Claim C7, counterexample: the commented-out range guards mean an
out-of-range index reaches Python's `bytes(...)`, which raises
`ValueError` outside any `try`: `led_set(256, True)` and
`servo_set(300, 90)` raise instead of returning a boolean. -/
theorem claim_C7_counterexample :
    led_set connHead envOk 256 true = Except.error "ValueError" ∧
    servo_set connHead envOk 300 90 = Except.error "ValueError" :=
  ⟨rfl, rfl⟩

/-- Claim C7, amended: for every index in `0..255`, `led_set` and
`servo_set` return the boolean result of `send_packet` without raising
(the angle is clamped so it is always in range); an index outside
`0..255` raises `ValueError` from the byte encoding.  `speak` returns
normally for every text: even when synthesis raises, the exception is
caught and the queue is left unchanged. -/
theorem claim_C7 (s : HeadState) (env : SendEnv) (idx : Int)
    (h0 : 0 ≤ idx) (h1 : idx < 256) (o : Bool) (angle : Int)
    (text : List Char) (ts : TTSState) (e : String) (b : Bool) :
    led_set s env idx o = Except.ok (send_packet s env 1 [idx.toNat, if o then 1 else 0]) ∧
    servo_set s env idx angle =
      Except.ok (send_packet s env 2 [idx.toNat, (clamp180 angle).toNat]) ∧
    (speak text ⟨Except.error e, b⟩ ts).state.queue = ts.queue := by
  refine ⟨?_, ?_, ?_⟩
  · have hb : ∀ x ∈ ([idx, if o then 1 else 0] : List Int), 0 ≤ x ∧ x < 256 := by
      intro x hx
      simp only [List.mem_cons, List.mem_singleton, List.not_mem_nil, or_false] at hx
      rcases hx with rfl | rfl
      · exact ⟨h0, h1⟩
      · cases o <;> norm_num
    unfold led_set
    rw [pyBytes_ok _ hb]
    cases o <;> simp
  · have hb : ∀ x ∈ ([idx, clamp180 angle] : List Int), 0 ≤ x ∧ x < 256 := by
      intro x hx
      simp only [List.mem_cons, List.mem_singleton, List.not_mem_nil, or_false] at hx
      rcases hx with rfl | rfl
      · exact ⟨h0, h1⟩
      · refine ⟨le_max_left 0 _, ?_⟩
        exact lt_of_le_of_lt (max_le (by norm_num) (min_le_right _ _)) (by norm_num)
    unfold servo_set
    rw [pyBytes_ok _ hb]
    simp
  · cases text with
    | nil => rfl
    | cons c cs => rfl

/-- Claim C7 witness: an in-range index returns the send result. -/
theorem claim_C7_witness :
    (0 : Int) ≤ 4 ∧ (4 : Int) < 256 ∧
    led_set connHead envOk 4 true = Except.ok (send_packet connHead envOk 1 [4, 1]) :=
  ⟨by decide, by decide,
    (claim_C7 connHead envOk 4 (by decide) (by decide) true 90 ['h']
      ⟨false, false, 0, []⟩ "err" false).1⟩

/-- Claim C8, counterexample: even after `set_config` statically
configures a hostname and port, `connect` still issues a service
discovery query (one query here, where the claim's "skips discovery"
demands zero). -/
theorem claim_C8_counterexample :
    (connect (set_config initHead "esp8266-d3c2cf.local" 1234)
        [(some (1, 1234), TcpResult.ok)]).2.2 = 1 := rfl

/-- Claim C8, amended: `connect` never skips discovery — while
disconnected, every call issues one discovery query per retry attempt
regardless of any statically configured hostname; and if discovery
fails on all retries, `connect` returns failure without raising (it is
a total function returning a boolean). -/
theorem claim_C8 (s : HeadState) (env env2 : List ConnectAttempt)
    (hc : is_connected s = false) (hfail : ∀ a ∈ env, a.1 = none) (h2 : env2 ≠ []) :
    (connect s env).1 = false ∧
    (connect s env).2.2 = (env.take 3).length ∧
    1 ≤ (connect s env2).2.2 := by
  have htake : ∀ a ∈ env.take 3, a.1 = none :=
    fun a ha => hfail a (List.take_subset 3 env ha)
  have hrun := connectAttempts_all_none (env.take 3) s htake
  refine ⟨?_, ?_, ?_⟩
  · simp [connect, hc, hrun]
  · simp [connect, hc, hrun]
  · simp only [connect, hc, Bool.false_eq_true, if_false]
    cases env2 with
    | nil => exact absurd rfl h2
    | cons a rest =>
      obtain ⟨disc, tcp⟩ := a
      cases disc with
      | none => simp [List.take, connectAttempts]
      | some addr =>
        obtain ⟨ip, port⟩ := addr
        cases tcp <;> simp [List.take, connectAttempts]

/-- Claim C8 witness: a statically configured, disconnected head with
all three discovery attempts failing returns `False` after issuing
three discovery queries. -/
theorem claim_C8_witness :
    is_connected (set_config initHead "esp8266-d3c2cf.local" 1234) = false ∧
    (connect (set_config initHead "esp8266-d3c2cf.local" 1234) envConnFail.connectEnv).1
      = false ∧
    (connect (set_config initHead "esp8266-d3c2cf.local" 1234) envConnFail.connectEnv).2.2
      = 3 := by
  have h := claim_C8 (set_config initHead "esp8266-d3c2cf.local" 1234)
    envConnFail.connectEnv envConnFail.connectEnv rfl (by decide) (by decide)
  exact ⟨rfl, h.1, h.2.1.trans (by decide)⟩

/-- An ASCII scalar value encodes to a single UTF-8 byte. -/
lemma utf8EncodeChar_ascii (c : Char) (h : c.toNat < 128) :
    utf8EncodeChar c = [c.toNat] := by
  unfold utf8EncodeChar
  rw [if_pos h]

/-- An all-ASCII string has as many UTF-8 bytes as characters. -/
lemma utf8Encode_ascii_len (t : List Char) (h : ∀ c ∈ t, c.toNat < 128) :
    (utf8Encode t).length = t.length := by
  induction t with
  | nil => rfl
  | cons c cs ih =>
    have hc : c.toNat < 128 := h c (by simp)
    have hcs : ∀ x ∈ cs, x.toNat < 128 := fun x hx => h x (List.mem_cons_of_mem _ hx)
    show (utf8EncodeChar c ++ utf8Encode cs).length = cs.length + 1
    rw [List.length_append, utf8EncodeChar_ascii c hc, ih hcs]
    simp [Nat.add_comm]

/-- Claim C9, counterexample: a credential of 11 characters U+AC00
passes the 31-character check, yet its encoded payload after the
sub-command byte is 33 bytes (> 31) and the frame is still sent. -/
theorem claim_C9_counterexample :
    (List.replicate 11 (Char.ofNat 44032)).length ≤ 31 ∧
    31 < (utf8Encode (List.replicate 11 (Char.ofNat 44032))).length ∧
    (set_ssid connHead envOk (List.replicate 11 (Char.ofNat 44032))).1 = true ∧
    (set_ssid connHead envOk (List.replicate 11 (Char.ofNat 44032))).2 =
      [frame 3 (1 :: utf8Encode (List.replicate 11 (Char.ofNat 44032)))] :=
  ⟨by decide, by decide, rfl, rfl⟩

/-- Claim C9, amended: `set_ssid` and `set_password` cap the credential
at 31 *characters*, not 31 encoded bytes: any string longer than 31
characters is rejected without sending a frame, and for accepted
credentials that are pure ASCII the encoded payload after the
sub-command byte is at most 31 bytes — but a ≤31-character credential
with multi-byte characters can exceed 31 payload bytes and still be
sent. -/
theorem claim_C9 (st : HeadState) (env : SendEnv) (s t : List Char)
    (hlong : 31 < s.length) (hshort : t.length ≤ 31)
    (hascii : ∀ c ∈ t, c.toNat < 128) :
    set_ssid st env s = (false, []) ∧
    set_password st env s = (false, []) ∧
    (utf8Encode t).length ≤ 31 := by
  refine ⟨?_, ?_, ?_⟩
  · unfold set_ssid
    rw [if_pos hlong]
  · unfold set_password
    rw [if_pos hlong]
  · rw [utf8Encode_ascii_len t hascii]
    exact hshort

/-- Claim C9 witness: a 32-character SSID is rejected; the two-letter
ASCII SSID `hi` stays within 31 payload bytes. -/
theorem claim_C9_witness :
    31 < (List.replicate 32 'a').length ∧
    set_ssid connHead envOk (List.replicate 32 'a') = (false, []) ∧
    (utf8Encode ['h', 'i']).length ≤ 31 := by
  have h := claim_C9 connHead envOk (List.replicate 32 'a') ['h', 'i']
    (by decide) (by decide) (by decide)
  exact ⟨by decide, h.1, h.2.2⟩

/-- Claim C10: a falsy (empty) text makes `speak` return at once: no
synthesis happens, nothing is enqueued, and the engine state — queue
included — is untouched, so nothing is ever played for that call. -/
theorem claim_C10 (env : SpeakEnv) (s : TTSState) :
    speak [] env s = { state := s, synthesized := false } := rfl

/-- In every exit of the session body, LED 4 is lit at the end exactly
when an exception escaped the `try` body: the per-path `led_set(4,
False)` calls cover all non-exception exits, and no handler covers the
exception exits. -/
lemma session_body_led4_eq (mode : EventMode) (env : SessionEnv) :
    (session_body mode env).led4 = (session_body mode env).raised := by
  cases mode with
  | direct t =>
    simp only [session_body, session_tail, session_tail2]
    repeat' split
    all_goals rfl
  | full =>
    simp only [session_body, session_tail, session_tail2]
    repeat' split
    all_goals rfl

/-- Claim C1, counterexample: two failures of the claim as stated.
First, the in-progress check is not atomic with the locked flag set, so
two concurrently issued triggers (times 10 and 11, outside each other's
debounce window) interleaved as gate/gate/check/check/set/set both pass
the check before either sets the flag and BOTH report a started
session: two sessions are in progress at the final observation point,
with no cancellation anywhere in the run.  Second, a trigger arriving
within the 1-second window of the previous start (here at the same
timestamp), while a session is in progress, is dropped by the
chattering guard before the in-progress check: no cancellation is
invoked and the state is untouched. -/
theorem claim_C1_counterexample :
    (sysRun (idleG, racePool) [0, 0, 1, 1, 0, 1, 0, 1]).2.map outcomeOf =
      [some TriggerAction.startedSession, some TriggerAction.startedSession] ∧
    (sysRun (idleG, racePool) [0, 0, 1, 1, 0, 1, 0, 1]).1.eventInProgress = true ∧
    (on_button_press_entry 0 sActive).1 = TriggerAction.ignoredChatter ∧
    (on_button_press_entry 0 sActive).1 ≠ TriggerAction.cancelledExisting ∧
    (on_button_press_entry 0 sActive).2 = sActive ∧
    sActive.eventInProgress = true := by
  have hc1 : ¬((10 : ℚ) - idleG.lastEventStart < 1) := by
    show ¬((10 : ℚ) - 0 < 1)
    norm_num
  have ht1 : threadStep idleG ⟨10, Phase.gateRead⟩ = (idleG, ⟨10, Phase.gateWrite⟩) := by
    show (if (10 : ℚ) - idleG.lastEventStart < 1
        then (idleG, (⟨10, Phase.done TriggerAction.ignoredChatter⟩ : ThreadSt))
        else (idleG, (⟨10, Phase.gateWrite⟩ : ThreadSt)))
      = (idleG, (⟨10, Phase.gateWrite⟩ : ThreadSt))
    rw [if_neg hc1]
  have h1 : sysStep (idleG, racePool) 0 =
      (idleG, [⟨10, Phase.gateWrite⟩, ⟨11, Phase.gateRead⟩]) := by
    calc sysStep (idleG, racePool) 0
        = ((threadStep idleG ⟨10, Phase.gateRead⟩).1,
            racePool.set 0 (threadStep idleG ⟨10, Phase.gateRead⟩).2) := rfl
      _ = (idleG, [⟨10, Phase.gateWrite⟩, ⟨11, Phase.gateRead⟩]) := by rw [ht1]; rfl
  have h2 : sysStep (idleG, [⟨10, Phase.gateWrite⟩, ⟨11, Phase.gateRead⟩]) 0 =
      (gRace1, [⟨10, Phase.check⟩, ⟨11, Phase.gateRead⟩]) := rfl
  have hc3 : ¬((11 : ℚ) - gRace1.lastEventStart < 1) := by
    show ¬((11 : ℚ) - 10 < 1)
    norm_num
  have ht3 : threadStep gRace1 ⟨11, Phase.gateRead⟩ = (gRace1, ⟨11, Phase.gateWrite⟩) := by
    show (if (11 : ℚ) - gRace1.lastEventStart < 1
        then (gRace1, (⟨11, Phase.done TriggerAction.ignoredChatter⟩ : ThreadSt))
        else (gRace1, (⟨11, Phase.gateWrite⟩ : ThreadSt)))
      = (gRace1, (⟨11, Phase.gateWrite⟩ : ThreadSt))
    rw [if_neg hc3]
  have h3 : sysStep (gRace1, [⟨10, Phase.check⟩, ⟨11, Phase.gateRead⟩]) 1 =
      (gRace1, [⟨10, Phase.check⟩, ⟨11, Phase.gateWrite⟩]) := by
    calc sysStep (gRace1, [⟨10, Phase.check⟩, ⟨11, Phase.gateRead⟩]) 1
        = ((threadStep gRace1 ⟨11, Phase.gateRead⟩).1,
            [(⟨10, Phase.check⟩ : ThreadSt), ⟨11, Phase.gateRead⟩].set 1
              (threadStep gRace1 ⟨11, Phase.gateRead⟩).2) := rfl
      _ = (gRace1, [⟨10, Phase.check⟩, ⟨11, Phase.gateWrite⟩]) := by rw [ht3]; rfl
  have h4 : sysStep (gRace1, [⟨10, Phase.check⟩, ⟨11, Phase.gateWrite⟩]) 1 =
      (gRace2, [⟨10, Phase.check⟩, ⟨11, Phase.check⟩]) := rfl
  have h5 : sysStep (gRace2, [⟨10, Phase.check⟩, ⟨11, Phase.check⟩]) 0 =
      (gRace2, [⟨10, Phase.start⟩, ⟨11, Phase.check⟩]) := rfl
  have h6 : sysStep (gRace2, [⟨10, Phase.start⟩, ⟨11, Phase.check⟩]) 1 =
      (gRace2, [⟨10, Phase.start⟩, ⟨11, Phase.start⟩]) := rfl
  have h7 : sysStep (gRace2, [⟨10, Phase.start⟩, ⟨11, Phase.start⟩]) 0 =
      (gRace3, [⟨10, Phase.done TriggerAction.startedSession⟩, ⟨11, Phase.start⟩]) := rfl
  have h8 : sysStep
      (gRace3, [⟨10, Phase.done TriggerAction.startedSession⟩, ⟨11, Phase.start⟩]) 1 =
      (gRace3, [⟨10, Phase.done TriggerAction.startedSession⟩,
                ⟨11, Phase.done TriggerAction.startedSession⟩]) := rfl
  have hrun : sysRun (idleG, racePool) [0, 0, 1, 1, 0, 1, 0, 1] =
      (gRace3, [⟨10, Phase.done TriggerAction.startedSession⟩,
                ⟨11, Phase.done TriggerAction.startedSession⟩]) := by
    rw [sysRun_cons, h1, sysRun_cons, h2, sysRun_cons, h3, sysRun_cons, h4,
      sysRun_cons, h5, sysRun_cons, h6, sysRun_cons, h7, sysRun_cons, h8]
    rfl
  have hdrop : on_button_press_entry 0 sActive = (TriggerAction.ignoredChatter, sActive) :=
    entry_ignored sActive 0 (by show (0 : ℚ) - 0 < 1; norm_num)
  refine ⟨by rw [hrun]; rfl, by rw [hrun]; rfl, by rw [hdrop],
    by rw [hdrop]; simp, by rw [hdrop], rfl⟩

/-- Claim C1, amended: a trigger call whose check step observes the
in-progress flag set or speech playing cancels the current activity
(after which the flag and the playing marker are clear) and never
reports a started session for that call — so when trigger calls are
serialized, each completing its entry before the next begins, at most
one session is ever in progress: a serialized trigger against an
active session never starts, it cancels when outside the 1-second
debounce window and is dropped without cancelling inside it.  The
check is not atomic with the locked flag set, however, so this
single-flight guarantee does not extend to concurrently interleaved
triggers (see the counterexample). -/
theorem claim_C1 (g : OrchState) (t : ThreadSt) (now : ℚ)
    (hactive : g.eventInProgress = true ∨ g.ttsPlaying = true) :
    (t.phase = Phase.check →
      threadStep g t =
        (cancel_current_event g,
          { t with phase := Phase.done TriggerAction.cancelledExisting }) ∧
      (cancel_current_event g).eventInProgress = false ∧
      (cancel_current_event g).ttsPlaying = false) ∧
    (on_button_press_entry now g).1 ≠ TriggerAction.startedSession ∧
    (1 ≤ now - g.lastEventStart →
      (on_button_press_entry now g).1 = TriggerAction.cancelledExisting ∧
      (on_button_press_entry now g).2.eventInProgress = false ∧
      (on_button_press_entry now g).2.ttsPlaying = false) ∧
    (t.phase = Phase.gateRead → t.now - g.lastEventStart < 1 →
      threadStep g t = (g, { t with phase := Phase.done TriggerAction.ignoredChatter })) := by
  have hor : (g.eventInProgress || g.ttsPlaying) = true := by
    rcases hactive with h | h <;> simp [h]
  obtain ⟨tn, tp⟩ := t
  refine ⟨?_, ?_, ?_, ?_⟩
  · intro hph
    have htp : tp = Phase.check := hph
    subst htp
    refine ⟨?_, cancel_active g hactive⟩
    show (if (g.eventInProgress || g.ttsPlaying) = true
        then (cancel_current_event g,
              (⟨tn, Phase.done TriggerAction.cancelledExisting⟩ : ThreadSt))
        else (g, (⟨tn, Phase.start⟩ : ThreadSt)))
      = (cancel_current_event g,
          (⟨tn, Phase.done TriggerAction.cancelledExisting⟩ : ThreadSt))
    rw [if_pos hor]
  · by_cases hlt : now - g.lastEventStart < 1
    · rw [entry_ignored g now hlt]
      simp
    · rw [entry_cancel g now hor hlt]
      simp
  · intro hge
    have hlt : ¬(now - g.lastEventStart < 1) := by linarith
    have hactive' : ({ g with lastEventStart := now } : OrchState).eventInProgress = true ∨
        ({ g with lastEventStart := now } : OrchState).ttsPlaying = true := hactive
    refine ⟨by rw [entry_cancel g now hor hlt], ?_, ?_⟩
    · rw [entry_cancel g now hor hlt]
      exact (cancel_active _ hactive').1
    · rw [entry_cancel g now hor hlt]
      exact (cancel_active _ hactive').2
  · intro hph hlt
    have htp : tp = Phase.gateRead := hph
    subst htp
    show (if tn - g.lastEventStart < 1
        then (g, (⟨tn, Phase.done TriggerAction.ignoredChatter⟩ : ThreadSt))
        else (g, (⟨tn, Phase.gateWrite⟩ : ThreadSt)))
      = (g, (⟨tn, Phase.done TriggerAction.ignoredChatter⟩ : ThreadSt))
    rw [if_pos hlt]

/-- Claim C1 witness: against a session in progress since time 0, a
trigger call at phase `check` cancels it, and a serialized trigger at
time 5 reports cancellation with the flag clear afterwards. -/
theorem claim_C1_witness :
    (sActive.eventInProgress = true ∨ sActive.ttsPlaying = true) ∧
    (on_button_press_entry 5 sActive).1 ≠ TriggerAction.startedSession ∧
    (on_button_press_entry 5 sActive).1 = TriggerAction.cancelledExisting ∧
    (on_button_press_entry 5 sActive).2.eventInProgress = false ∧
    threadStep sActive ⟨5, Phase.check⟩ =
      (cancel_current_event sActive, ⟨5, Phase.done TriggerAction.cancelledExisting⟩) := by
  have h := claim_C1 sActive ⟨5, Phase.check⟩ 5 (Or.inl rfl)
  have hge : (1 : ℚ) ≤ 5 - sActive.lastEventStart := by
    show (1 : ℚ) ≤ 5 - 0
    norm_num
  exact ⟨Or.inl rfl, h.2.1, (h.2.2.1 hge).1, (h.2.2.1 hge).2.1, (h.1 rfl).1⟩

/-- Claim C2, counterexample: when the unguarded prompt-tone
collaborator raises inside the session body, the exception reaches the
outer handler and the `finally` block — which clears only the
in-progress flag — runs, so the session ends with LED 4 still on. -/
theorem claim_C2_counterexample :
    (session_body EventMode.full envBeepRaises).raised = true ∧
    (on_button_press_session EventMode.full envBeepRaises).led4 = true ∧
    (on_button_press_session EventMode.full envBeepRaises).eventInProgress = false :=
  ⟨rfl, rfl, rfl⟩

/-- Claim C2, amended: the in-progress flag (and the cancellation flag)
is cleared in the `finally` block on every exit path of
`on_button_press_event`; LED 4, however, is turned off by explicit
per-path calls — so it ends the session off on normal completion and
on every early return, but not when an exception escapes the `try`
body, because the `finally` block does not touch it. -/
theorem claim_C2 (mode : EventMode) (env : SessionEnv) :
    (on_button_press_session mode env).eventInProgress = false ∧
    (on_button_press_session mode env).cancelRequested = false ∧
    ((session_body mode env).raised = false →
      (on_button_press_session mode env).led4 = false) := by
  refine ⟨rfl, rfl, fun h => ?_⟩
  show (session_body mode env).led4 = false
  rw [session_body_led4_eq]
  exact h

/-- Claim C2 witness: a fully successful session ends with the
in-progress flag cleared and LED 4 off. -/
theorem claim_C2_witness :
    (on_button_press_session EventMode.full envBenign).eventInProgress = false ∧
    (on_button_press_session EventMode.full envBenign).cancelRequested = false ∧
    (on_button_press_session EventMode.full envBenign).led4 = false :=
  ⟨(claim_C2 EventMode.full envBenign).1, (claim_C2 EventMode.full envBenign).2.1,
   (claim_C2 EventMode.full envBenign).2.2 rfl⟩

end Asrada
